import Mathlib

/-!
Verification of `pkg/handlerutil/response.go` from spilger/go-scim.

The two functions `WriteResourceToResponse` and `WriteError` are embedded
shallowly.  The `http.ResponseWriter` collaborator is modelled as a recording
channel: a list of events (`setHeader`, `writeHeader`, `writeBody`) appended in
call order, which is the observation model the component exposes ("set header",
"write status", "write body bytes").  External collaborators that are not part
of this source slice (the `pkg/spec` error type, the resource serializer, the
generic JSON encoder) are modelled by their interfaces; `ErrInternal` is
modelled from the spec.
-/

namespace GoScim

/-- Go error values as relevant to `WriteError`: a `*spec.Error` leaf (status,
scimType, rendered message), an error that wraps a cause (`errors.Unwrap`
yields the cause), or a plain error with no cause. -/
inductive GoError where
  | specError (status : Int) (scimType : String) (msg : String)
  | wrapped (msg : String) (cause : GoError)
  | basic (msg : String)
deriving Repr, DecidableEq

/-- The rendered message of an error, i.e. Go's `err.Error()`. -/
def GoError.message : GoError → String
  | .specError _ _ m => m
  | .wrapped m _ => m
  | .basic m => m

/-- `errors.Unwrap`: yields the direct cause when the error wraps one,
otherwise nil (`none`).  A `*spec.Error` has no `Unwrap` method, so it
unwraps to nothing. -/
def unwrap : GoError → Option GoError
  | .wrapped _ c => some c
  | _ => none

/-- The classification payload of a `*spec.Error`: `Status` and `Type`. -/
structure SpecError where
  status : Int
  scimType : String
deriving Repr, DecidableEq

/-- The type assertion `cause.(*spec.Error)`: succeeds exactly when the value
is a `*spec.Error`, yielding its classification. -/
def asSpecError : GoError → Option SpecError
  | .specError s t _ => some ⟨s, t⟩
  | _ => none

/-- Modelled from the spec: the singleton `spec.ErrInternal` (package
`pkg/spec` is not part of this source slice).  The spec fixes its status to
500 and a fixed internal-error type string. -/
def ErrInternal : SpecError := ⟨500, "internalError"⟩

/-- The anonymous wire error body struct built inside `WriteError`:
`schemas`, `status`, `scimType`, `detail`. -/
structure WireErrorBody where
  schemas : List String
  status : Int
  scimType : String
  detail : String
deriving Repr, DecidableEq

/-- Constructor for the wire error body as `WriteError` builds it: the
`Schemas` field is the constant single-URI list and `Detail` carries the
rendered message of the original error. -/
def wireErrorBody (status : Int) (scimType detail : String) : WireErrorBody :=
  { schemas := ["urn:ietf:params:scim:api:messages:2.0:Error"]
    status := status
    scimType := scimType
    detail := detail }

/-- The classification step of `WriteError` (lines 42-58 of response.go):
unwrap the error once; if the cause type-asserts to `*spec.Error` take its
`Status` and `Type`, otherwise fall back to `spec.ErrInternal`; `Detail` is
always `err.Error()` of the original error. -/
def buildErrMsg (err : GoError) : WireErrorBody :=
  match (unwrap err).bind asSpecError with
  | some scimError => wireErrorBody scimError.status scimError.scimType err.message
  | none => wireErrorBody ErrInternal.status ErrInternal.scimType err.message

/-- One observable call on the response channel (`http.ResponseWriter`):
`rw.Header().Set`, `rw.WriteHeader`, or `rw.Write` of body bytes. -/
inductive RWEvent where
  | setHeader (name value : String)
  | writeHeader (status : Int)
  | writeBody (raw : List Nat)
deriving Repr, DecidableEq

/-- Serialization options (`scimjson.Options`): attribute include / exclude
selectors, passed through to the serializer unmodified. -/
inductive SerOption where
  | includeAttrs (paths : List String)
  | excludeAttrs (paths : List String)
deriving Repr, DecidableEq

/-- A `*prop.Resource` as this component consumes it: the external serializer
applied to it (`scimjson.Serialize(resource, options...)`, which yields bytes
or fails), and the `MetaLocationOrEmpty` / `MetaVersionOrEmpty` accessors. -/
structure Resource where
  serialize : List SerOption → Except GoError (List Nat)
  metaLocationOrEmpty : String
  metaVersionOrEmpty : String

/-- `WriteResourceToResponse` (lines 19-35 of response.go), with the response
channel as a recording trace: serialize first and return the failure
untouched on error; on success set `Content-Type`, conditionally `Location`
and `ETag`, then write the serialized bytes as the body. -/
def WriteResourceToResponse (rw : List RWEvent) (resource : Resource)
    (options : List SerOption) : Except GoError Unit × List RWEvent :=
  match resource.serialize options with
  | .error jsonErr => (.error jsonErr, rw)
  | .ok raw =>
    let rw1 := rw ++ [RWEvent.setHeader "Content-Type" "application/json+scim"]
    let rw2 := if 0 < resource.metaLocationOrEmpty.length
      then rw1 ++ [RWEvent.setHeader "Location" resource.metaLocationOrEmpty]
      else rw1
    let rw3 := if 0 < resource.metaVersionOrEmpty.length
      then rw2 ++ [RWEvent.setHeader "ETag" resource.metaVersionOrEmpty]
      else rw2
    (.ok (), rw3 ++ [RWEvent.writeBody raw])

/-- `WriteError` (lines 41-71 of response.go), with the response channel as a
recording trace and the generic JSON encoder (`json.Marshal`, external to
this slice) abstracted as `marshal`: build the wire body, write the HTTP
status, set `Content-Type`, then marshal the body; on marshal failure return
that failure with no body written, otherwise write the bytes. -/
def WriteError (marshal : WireErrorBody → Except GoError (List Nat))
    (rw : List RWEvent) (err : GoError) : Except GoError Unit × List RWEvent :=
  let errMsg := buildErrMsg err
  let rw1 := rw ++ [RWEvent.writeHeader errMsg.status]
  let rw2 := rw1 ++ [RWEvent.setHeader "Content-Type" "application/json+scim"]
  match marshal errMsg with
  | .error jsonErr => (.error jsonErr, rw2)
  | .ok raw => (.ok (), rw2 ++ [RWEvent.writeBody raw])

/-- JSON values, the codomain of the generic JSON encoder (`encoding/json`,
external to this slice) at the value level; numbers are restricted to the
integers this component emits. -/
inductive JValue where
  | null
  | bool (b : Bool)
  | num (n : Int)
  | str (s : String)
  | arr (xs : List JValue)
  | obj (fields : List (String × JValue))

/-- `json.Marshal` of the wire error body at the JSON-value level: an object
with the four tagged fields in declaration order. -/
def marshalWireErrorBody (m : WireErrorBody) : JValue :=
  .obj [("schemas", .arr (m.schemas.map JValue.str)),
        ("status", .num m.status),
        ("scimType", .str m.scimType),
        ("detail", .str m.detail)]

/-- Field lookup in a parsed JSON object. -/
def lookupField (fields : List (String × JValue)) (name : String) : Option JValue :=
  (fields.find? (fun p => p.1 == name)).map Prod.snd

/-- Read a JSON value back as a string. -/
def JValue.asStr : JValue → Option String
  | .str s => some s
  | _ => none

/-- Read a JSON value back as an integer. -/
def JValue.asNum : JValue → Option Int
  | .num n => some n
  | _ => none

/-- Read a JSON value back as a list of strings. -/
def JValue.asStrList : JValue → Option (List String)
  | .arr xs => xs.mapM JValue.asStr
  | _ => none

/-- `json.Unmarshal` of the wire error body: extract the four tagged fields
from a JSON object. -/
def unmarshalWireErrorBody (v : JValue) : Option WireErrorBody :=
  match v with
  | .obj fields => do
    let schemas ← (lookupField fields "schemas").bind JValue.asStrList
    let status ← (lookupField fields "status").bind JValue.asNum
    let scimType ← (lookupField fields "scimType").bind JValue.asStr
    let detail ← (lookupField fields "detail").bind JValue.asStr
    pure ⟨schemas, status, scimType, detail⟩
  | _ => none

/-- Recognizer for status-line commits on the response channel. -/
def RWEvent.isWriteHeaderEv : RWEvent → Bool
  | .writeHeader _ => true
  | _ => false

/-- Recognizer for body writes on the response channel. -/
def RWEvent.isWriteBodyEv : RWEvent → Bool
  | .writeBody _ => true
  | _ => false

/-- The full observable behavior of `WriteError`: the result value and the
exact event trace, split on the outcome of the body marshalling. -/
theorem writeError_trace (marshal : WireErrorBody → Except GoError (List Nat))
    (rw : List RWEvent) (err : GoError) :
    (WriteError marshal rw err).2 =
      rw ++ [RWEvent.writeHeader (buildErrMsg err).status,
             RWEvent.setHeader "Content-Type" "application/json+scim"] ++
        (match marshal (buildErrMsg err) with
         | .error _ => []
         | .ok raw => [RWEvent.writeBody raw]) ∧
    (WriteError marshal rw err).1 =
      (match marshal (buildErrMsg err) with
       | .error jsonErr => Except.error jsonErr
       | .ok _ => Except.ok ()) := by
  simp only [WriteError]
  rcases hm : marshal (buildErrMsg err) with e | raw <;> simp [hm]

/-- The full observable behavior of `WriteResourceToResponse` on the success
path: the result value and the exact event trace. -/
theorem writeResource_trace (rw : List RWEvent) (resource : Resource)
    (options : List SerOption) (raw : List Nat)
    (h : resource.serialize options = .ok raw) :
    WriteResourceToResponse rw resource options =
      (.ok (),
       rw ++ [RWEvent.setHeader "Content-Type" "application/json+scim"] ++
        (if 0 < resource.metaLocationOrEmpty.length
         then [RWEvent.setHeader "Location" resource.metaLocationOrEmpty] else []) ++
        (if 0 < resource.metaVersionOrEmpty.length
         then [RWEvent.setHeader "ETag" resource.metaVersionOrEmpty] else []) ++
        [RWEvent.writeBody raw]) := by
  simp only [WriteResourceToResponse, h]
  by_cases hl : 0 < resource.metaLocationOrEmpty.length <;>
    by_cases hv : 0 < resource.metaVersionOrEmpty.length <;> simp [hl, hv]

/-- Claim C1: for every error passed to `WriteError`, if its single unwrap
yields a `*spec.Error` cause then the wire body's status and scimType and the
committed HTTP status equal that cause's status and type; otherwise (no
cause, or a cause of another kind) the body and the committed status carry
the fixed internal-error classification, status 500. -/
theorem writeError_classifies_by_unwrapped_cause
    (marshal : WireErrorBody → Except GoError (List Nat)) (err : GoError) :
    (∀ cause se, unwrap err = some cause → asSpecError cause = some se →
      (buildErrMsg err).status = se.status ∧
      (buildErrMsg err).scimType = se.scimType ∧
      (WriteError marshal [] err).2.head? = some (RWEvent.writeHeader se.status)) ∧
    ((unwrap err).bind asSpecError = none →
      (buildErrMsg err).status = 500 ∧
      (buildErrMsg err).scimType = ErrInternal.scimType ∧
      (WriteError marshal [] err).2.head? = some (RWEvent.writeHeader 500)) := by
  have ht := (writeError_trace marshal [] err).1
  constructor
  · intro cause se hc hse
    have hbind : (unwrap err).bind asSpecError = some se := by
      rw [hc]; simpa using hse
    have hb : buildErrMsg err = wireErrorBody se.status se.scimType err.message := by
      simp [buildErrMsg, hbind]
    refine ⟨by simp [hb, wireErrorBody], by simp [hb, wireErrorBody], ?_⟩
    rw [ht, hb]
    rcases marshal (wireErrorBody se.status se.scimType err.message) <;>
      simp [wireErrorBody]
  · intro hbind
    have hb : buildErrMsg err =
        wireErrorBody ErrInternal.status ErrInternal.scimType err.message := by
      simp [buildErrMsg, hbind]
    refine ⟨by simp [hb, wireErrorBody, ErrInternal], by simp [hb, wireErrorBody], ?_⟩
    rw [ht, hb]
    rcases marshal (wireErrorBody ErrInternal.status ErrInternal.scimType err.message) <;>
      simp [wireErrorBody, ErrInternal]

/-- Witness for C1: a wrap of a 404 `invalidPath` protocol error takes the
cause's classification; a bare "disk full" error takes the fallback. -/
theorem writeError_classifies_by_unwrapped_cause_witness :
    ((buildErrMsg (GoError.wrapped "nf" (GoError.specError 404 "invalidPath" "x"))).status = 404 ∧
     (buildErrMsg (GoError.wrapped "nf" (GoError.specError 404 "invalidPath" "x"))).scimType = "invalidPath" ∧
     (WriteError (fun _ => .ok []) [] (GoError.wrapped "nf" (GoError.specError 404 "invalidPath" "x"))).2.head? =
       some (RWEvent.writeHeader 404)) ∧
    ((buildErrMsg (GoError.basic "disk full")).status = 500 ∧
     (buildErrMsg (GoError.basic "disk full")).scimType = ErrInternal.scimType ∧
     (WriteError (fun _ => .ok []) [] (GoError.basic "disk full")).2.head? =
       some (RWEvent.writeHeader 500)) := by
  constructor
  · have h := (writeError_classifies_by_unwrapped_cause (fun _ => .ok [])
      (GoError.wrapped "nf" (GoError.specError 404 "invalidPath" "x"))).1
      (GoError.specError 404 "invalidPath" "x") ⟨404, "invalidPath"⟩ rfl rfl
    exact h
  · have h := (writeError_classifies_by_unwrapped_cause (fun _ => .ok [])
      (GoError.basic "disk full")).2 rfl
    exact h

/-- Claim C2: if the external serializer fails with error `E`,
`WriteResourceToResponse` returns `E` unchanged and the response channel is
left exactly as it was: no header set, no status, no body byte written. -/
theorem writeResource_serializeFailure_propagates
    (rw : List RWEvent) (resource : Resource) (options : List SerOption)
    (E : GoError) (h : resource.serialize options = .error E) :
    WriteResourceToResponse rw resource options = (.error E, rw) := by
  simp [WriteResourceToResponse, h]

/-- Witness for C2: a resource whose serializer fails with a concrete error
leaves an empty channel empty and returns that error. -/
theorem writeResource_serializeFailure_propagates_witness :
    WriteResourceToResponse []
      ⟨fun _ => .error (GoError.basic "boom"), "loc", "v1"⟩ [] =
      (.error (GoError.basic "boom"), []) :=
  writeResource_serializeFailure_propagates []
    ⟨fun _ => .error (GoError.basic "boom"), "loc", "v1"⟩ []
    (GoError.basic "boom") rfl

/-- Claim C4: the wire body's `detail` field is always the rendered message
of the original error itself, in both classification branches. -/
theorem writeError_detail_is_original_message (err : GoError) :
    (buildErrMsg err).detail = err.message := by
  unfold buildErrMsg
  cases (unwrap err).bind asSpecError <;> simp [wireErrorBody]

/-- Recognizer for header-set calls on the response channel. -/
def RWEvent.isSetHeaderEv : RWEvent → Bool
  | .setHeader _ _ => true
  | _ => false

/-- Claim C3: every `WriteError` invocation commits exactly one HTTP status
to the channel, that status equals the constructed wire body's `status`
field, and any body bytes written are the serialization of that same single
body — so the body's status and the committed status never diverge, in both
branches. -/
theorem writeError_status_never_diverges
    (marshal : WireErrorBody → Except GoError (List Nat)) (err : GoError) :
    (WriteError marshal [] err).2.filter RWEvent.isWriteHeaderEv =
      [RWEvent.writeHeader (buildErrMsg err).status] ∧
    (∀ raw, RWEvent.writeBody raw ∈ (WriteError marshal [] err).2 →
      marshal (buildErrMsg err) = .ok raw) := by
  have ht := (writeError_trace marshal [] err).1
  rw [ht]
  rcases hm : marshal (buildErrMsg err) with e | raw <;>
    simp [RWEvent.isWriteHeaderEv]

/-- Witness for C3: with a marshaller returning bytes `[7]` and a plain
error, the unique status commit is 500 and the body is `[7]`. -/
theorem writeError_status_never_diverges_witness :
    (WriteError (fun _ => .ok [7]) [] (GoError.basic "x")).2.filter
        RWEvent.isWriteHeaderEv = [RWEvent.writeHeader 500] ∧
    (fun (_ : WireErrorBody) => (Except.ok [7] : Except GoError (List Nat)))
        (buildErrMsg (GoError.basic "x")) = .ok [7] := by
  obtain ⟨h1, h2⟩ :=
    writeError_status_never_diverges (fun _ => .ok [7]) (GoError.basic "x")
  refine ⟨?_, ?_⟩
  · simpa [buildErrMsg, unwrap, asSpecError, ErrInternal, wireErrorBody] using h1
  · exact h2 [7] (by
      rw [(writeError_trace (fun _ => .ok [7]) [] (GoError.basic "x")).1]
      simp)

/-- Claim C5: on the success path, the `Location` header is set exactly to
the resource's `meta.location` when that value is non-empty and is absent
when it is empty, and likewise `ETag` is set exactly to `meta.version` when
non-empty and absent when empty. -/
theorem writeResource_location_etag_headers (resource : Resource)
    (options : List SerOption) (raw : List Nat)
    (h : resource.serialize options = .ok raw) :
    (0 < resource.metaLocationOrEmpty.length →
      RWEvent.setHeader "Location" resource.metaLocationOrEmpty ∈
        (WriteResourceToResponse [] resource options).2) ∧
    (∀ v, RWEvent.setHeader "Location" v ∈
        (WriteResourceToResponse [] resource options).2 →
      0 < resource.metaLocationOrEmpty.length ∧
        v = resource.metaLocationOrEmpty) ∧
    (0 < resource.metaVersionOrEmpty.length →
      RWEvent.setHeader "ETag" resource.metaVersionOrEmpty ∈
        (WriteResourceToResponse [] resource options).2) ∧
    (∀ v, RWEvent.setHeader "ETag" v ∈
        (WriteResourceToResponse [] resource options).2 →
      0 < resource.metaVersionOrEmpty.length ∧
        v = resource.metaVersionOrEmpty) := by
  have ht := writeResource_trace [] resource options raw h
  rw [ht]
  by_cases hl : 0 < resource.metaLocationOrEmpty.length <;>
    by_cases hv : 0 < resource.metaVersionOrEmpty.length <;>
      simp [hl, hv]

/-- Witness for C5: a resource with location `"https://x/Users/1"` and
version `"W/1"` gets both headers with exactly those values. -/
theorem writeResource_location_etag_headers_witness :
    RWEvent.setHeader "Location" "https://x/Users/1" ∈
      (WriteResourceToResponse []
        ⟨fun _ => .ok [1], "https://x/Users/1", "W/1"⟩ []).2 ∧
    RWEvent.setHeader "ETag" "W/1" ∈
      (WriteResourceToResponse []
        ⟨fun _ => .ok [1], "https://x/Users/1", "W/1"⟩ []).2 := by
  obtain ⟨h1, _, h3, _⟩ := writeResource_location_etag_headers
    ⟨fun _ => .ok [1], "https://x/Users/1", "W/1"⟩ [] [1] rfl
  exact ⟨h1 (by decide), h3 (by decide)⟩

/-- Claim C6: the `Content-Type` header is set to `application/json+scim` on
every successful resource write and on every error write. -/
theorem contentType_always_scim_json
    (marshal : WireErrorBody → Except GoError (List Nat))
    (resource : Resource) (options : List SerOption) (raw : List Nat)
    (err : GoError) :
    (resource.serialize options = .ok raw →
      RWEvent.setHeader "Content-Type" "application/json+scim" ∈
        (WriteResourceToResponse [] resource options).2) ∧
    RWEvent.setHeader "Content-Type" "application/json+scim" ∈
      (WriteError marshal [] err).2 := by
  constructor
  · intro h
    rw [writeResource_trace [] resource options raw h]
    simp
  · rw [(writeError_trace marshal [] err).1]
    rcases marshal (buildErrMsg err) <;> simp

/-- Witness for C6: a concrete successful resource write and a concrete
error write both set the SCIM JSON content type. -/
theorem contentType_always_scim_json_witness :
    RWEvent.setHeader "Content-Type" "application/json+scim" ∈
      (WriteResourceToResponse [] ⟨fun _ => .ok [2], "", ""⟩ []).2 ∧
    RWEvent.setHeader "Content-Type" "application/json+scim" ∈
      (WriteError (fun _ => .ok []) [] (GoError.basic "x")).2 := by
  obtain ⟨h1, h2⟩ := contentType_always_scim_json (fun _ => .ok [])
    ⟨fun _ => .ok [2], "", ""⟩ [] [2] (GoError.basic "x")
  exact ⟨h1 rfl, h2⟩

/-- Claim C7: if marshalling the wire error body fails, `WriteError` returns
that failure and the channel holds exactly the already-committed status and
`Content-Type` header — no body bytes were written. -/
theorem writeError_marshalFailure_propagates
    (marshal : WireErrorBody → Except GoError (List Nat)) (err : GoError)
    (E : GoError) (h : marshal (buildErrMsg err) = .error E) :
    WriteError marshal [] err =
      (.error E,
       [RWEvent.writeHeader (buildErrMsg err).status,
        RWEvent.setHeader "Content-Type" "application/json+scim"]) := by
  obtain ⟨h2, h1⟩ := writeError_trace marshal [] err
  rw [h] at h1 h2
  rw [show WriteError marshal [] err =
    ((WriteError marshal [] err).1, (WriteError marshal [] err).2) from rfl,
    h1, h2]
  simp

/-- Witness for C7: a marshaller that always fails with `"enc"` leaves only
the status and content-type events on the channel and returns the failure. -/
theorem writeError_marshalFailure_propagates_witness :
    WriteError (fun _ => .error (GoError.basic "enc")) [] (GoError.basic "x") =
      (.error (GoError.basic "enc"),
       [RWEvent.writeHeader 500,
        RWEvent.setHeader "Content-Type" "application/json+scim"]) := by
  have h := writeError_marshalFailure_propagates
    (fun _ => .error (GoError.basic "enc")) (GoError.basic "x")
    (GoError.basic "enc") rfl
  simpa [buildErrMsg, unwrap, asSpecError, ErrInternal, wireErrorBody] using h

/-- Claim C9: on the success path of `WriteResourceToResponse`, the event
trace is a prefix of header-set calls followed by the single body write — so
every header mutation happens before the body write. -/
theorem writeResource_headers_before_body (resource : Resource)
    (options : List SerOption) (raw : List Nat)
    (h : resource.serialize options = .ok raw) :
    ∃ hdrs, (WriteResourceToResponse [] resource options).2 =
        hdrs ++ [RWEvent.writeBody raw] ∧
      hdrs.all RWEvent.isSetHeaderEv = true := by
  have ht := writeResource_trace [] resource options raw h
  refine ⟨[RWEvent.setHeader "Content-Type" "application/json+scim"] ++
      (if 0 < resource.metaLocationOrEmpty.length
       then [RWEvent.setHeader "Location" resource.metaLocationOrEmpty] else []) ++
      (if 0 < resource.metaVersionOrEmpty.length
       then [RWEvent.setHeader "ETag" resource.metaVersionOrEmpty] else []),
    ?_, ?_⟩
  · rw [ht]
    simp
  · by_cases hl : 0 < resource.metaLocationOrEmpty.length <;>
      by_cases hv : 0 < resource.metaVersionOrEmpty.length <;>
        simp [hl, hv, RWEvent.isSetHeaderEv]

/-- Witness for C9: for a concrete resource the trace decomposes into
header events followed by the body write. -/
theorem writeResource_headers_before_body_witness :
    ∃ hdrs, (WriteResourceToResponse []
        ⟨fun _ => .ok [9], "https://x", "v"⟩ []).2 =
        hdrs ++ [RWEvent.writeBody [9]] ∧
      hdrs.all RWEvent.isSetHeaderEv = true :=
  writeResource_headers_before_body ⟨fun _ => .ok [9], "https://x", "v"⟩ [] [9] rfl

/-- Claim C10: `WriteError` type-tests only the single direct unwrap: when
that unwrap yields no `*spec.Error` — including an error that is itself a
`*spec.Error` with no cause, and a `*spec.Error` nested at unwrap depth two
— the emitted classification is the internal-error fallback, never the
nested one's. -/
theorem writeError_only_direct_unwrap_classifies
    (marshal : WireErrorBody → Except GoError (List Nat)) (err : GoError) :
    ((unwrap err).bind asSpecError = none →
      buildErrMsg err =
        wireErrorBody ErrInternal.status ErrInternal.scimType err.message ∧
      (WriteError marshal [] err).2.head? =
        some (RWEvent.writeHeader ErrInternal.status)) ∧
    (∀ s t m, buildErrMsg (GoError.specError s t m) =
      wireErrorBody ErrInternal.status ErrInternal.scimType m) ∧
    (∀ m1 m2 s t m3,
      buildErrMsg (GoError.wrapped m1 (GoError.wrapped m2 (GoError.specError s t m3))) =
        wireErrorBody ErrInternal.status ErrInternal.scimType m1) := by
  refine ⟨?_, ?_, ?_⟩
  · intro hbind
    have hb : buildErrMsg err =
        wireErrorBody ErrInternal.status ErrInternal.scimType err.message := by
      simp [buildErrMsg, hbind]
    refine ⟨hb, ?_⟩
    rw [(writeError_trace marshal [] err).1, hb]
    rcases marshal (wireErrorBody ErrInternal.status ErrInternal.scimType err.message) <;>
      simp [wireErrorBody, ErrInternal]
  · intro s t m
    simp [buildErrMsg, unwrap, GoError.message]
  · intro m1 m2 s t m3
    simp [buildErrMsg, unwrap, asSpecError, GoError.message]

/-- Witness for C10: a bare `*spec.Error` with status 404 and a depth-two
nesting of the same both fall back to the internal-error classification. -/
theorem writeError_only_direct_unwrap_classifies_witness :
    (buildErrMsg (GoError.specError 404 "invalidPath" "m") =
        wireErrorBody ErrInternal.status ErrInternal.scimType "m" ∧
      (WriteError (fun _ => .ok []) [] (GoError.specError 404 "invalidPath" "m")).2.head? =
        some (RWEvent.writeHeader ErrInternal.status)) ∧
    buildErrMsg (GoError.wrapped "outer"
        (GoError.wrapped "mid" (GoError.specError 404 "invalidPath" "in"))) =
      wireErrorBody ErrInternal.status ErrInternal.scimType "outer" := by
  have h := writeError_only_direct_unwrap_classifies (fun _ => .ok [])
    (GoError.specError 404 "invalidPath" "m")
  exact ⟨h.1 rfl, (writeError_only_direct_unwrap_classifies (fun _ => .ok [])
    (GoError.basic "z")).2.2 "outer" "mid" 404 "invalidPath" "in"⟩

/-- Claim C8: serializing the wire error body to JSON and parsing it back
yields exactly the four fields it was constructed from, with `schemas` equal
to the single SCIM error-message URI. -/
theorem wireErrorBody_json_roundtrip (status : Int) (scimType detail : String) :
    unmarshalWireErrorBody (marshalWireErrorBody (wireErrorBody status scimType detail)) =
      some (wireErrorBody status scimType detail) ∧
    (wireErrorBody status scimType detail).schemas =
      ["urn:ietf:params:scim:api:messages:2.0:Error"] := by
  constructor
  · rfl
  · rfl

end GoScim
